import Mathlib

/-!
Shallow embedding of the astroquery ESO module's query-construction,
caching and authentication pipeline, translated from
`src/astroquery/eso/utils.py` and `src/astroquery/eso/core.py`.

Conventions of the embedding:
* Python strings are Lean `String`s; Python `None` is `Option.none`.
* Python `str.strip()` is `pyStrip` and `str.split(',')` is `pySplitComma`,
  written over `List Char` so that they evaluate by kernel reduction
  (the difference to Python is only in exotic unicode whitespace).
* Numeric filter values and coordinates are modelled over `Int` (the code
  accepts `int` coordinates: see `are_coords_valid` in utils.py, which
  allows `isinstance(x, (float, int))`); `f"{x}"` on an `Int` is `toString`.
* `time.time()` and file modification times are modelled at integer seconds.
* Fallible paths return `Option`/an explicit outcome constructor; an
  exception the source does not catch is an explicit outcome too
  (`CacheLookup.raises`, `QueryResult.uncaughtUnpickling`).
-/

/-- Python `str.strip()`: drop leading and trailing whitespace. -/
def pyStrip (s : String) : String :=
  String.mk (((s.data.dropWhile Char.isWhitespace).reverse.dropWhile Char.isWhitespace).reverse)

/-- Helper for `pySplitComma`: split a character list at every separator. -/
def splitCharAux (sep : Char) : List Char → List Char → List (List Char)
  | [], acc => [acc.reverse]
  | c :: cs, acc =>
    if c = sep then acc.reverse :: splitCharAux sep cs []
    else splitCharAux sep cs (c :: acc)

/-- Python `str.split(',')`. -/
def pySplitComma (s : String) : List String :=
  (splitCharAux ',' s.data []).map String.mk

/-- A Python filter value as the ESO module receives one: a string or a number
(numbers restricted to `Int`, see the header comment). -/
inductive PyVal where
  | str (s : String)
  | int (n : Int)
  deriving DecidableEq

/-- Python f-string interpolation `f"{v}"` of a `PyVal`: a string interpolates
to its own text (unquoted), an int to its decimal representation. -/
def PyVal.interp : PyVal → String
  | .str s => s
  | .int n => toString n

/-- utils.adql_sanitize_val: if the value is a string, put it into single
quotes; otherwise render it with `f"{x}"`. -/
def adql_sanitize_val : PyVal → String
  | .str s => "'" ++ s ++ "'"
  | .int n => toString n

/-- core.py imports this function under the name `sanitize_val`
(`from .utils import ..., sanitize_val, ...`). -/
def sanitize_val : PyVal → String := adql_sanitize_val

/-- utils._split_str_as_list_of_str. -/
def _split_str_as_list_of_str (column_str : String) : List String :=
  if column_str = "" then []
  else (pySplitComma column_str).map (fun x => pyStrip x)

/-- The `columns` argument of py2adql: `Union[List, str]` with default `None`. -/
inductive Columns where
  | pynone
  | pystr (s : String)
  | pylist (l : List String)
  deriving DecidableEq

/-- Python f-string interpolation of an `Optional[int]`: `None` renders as
the text "None". -/
def pyOptIntRepr : Option Int → String
  | Option.none => "None"
  | some n => toString n

/-- Python truthiness of an `Optional` number (`if ra:`): `None` and `0` are
falsy. -/
def pyTruthyOptInt : Option Int → Bool
  | Option.none => false
  | some n => n != 0

/-- utils.py2adql: return the adql string corresponding to the parameters
passed. Defaults in the source: `columns=None`, `ra=dec=radius=None`,
`where_constraints=None`, `order_by=''`, `order_by_desc=True`,
`count_only=False`, `top=None`. -/
def py2adql (table : String) (columns : Columns) (ra dec radius : Option Int)
    (where_constraints : Option (List String)) (order_by : String)
    (order_by_desc : Bool) (count_only : Bool) (top : Option Int) : String :=
  -- if ra: where_circle += [f'intersects(s_region, circle(...))=1']
  let where_circle : List String :=
    if pyTruthyOptInt ra then
      ["intersects(s_region, circle('ICRS', " ++ pyOptIntRepr ra ++ ", "
        ++ pyOptIntRepr dec ++ ", " ++ pyOptIntRepr radius ++ "))=1"]
    else []
  -- wc = [] if where_constraints is None else where_constraints[:]
  let wc : List String := match where_constraints with
    | Option.none => []
    | some l => l
  -- isinstance(columns, str) → _split_str_as_list_of_str
  let columns1 : List String := match columns with
    | .pynone => []
    | .pystr s => _split_str_as_list_of_str s
    | .pylist l => l
  -- if columns is None or len(columns) < 1: columns = ['*']
  let columns2 := if columns1.length < 1 then ["*"] else columns1
  -- if count_only: columns = ['count(*)']
  let columns3 := if count_only then ["count(*)"] else columns2
  let query_string := String.intercalate ", " columns3 ++ " from " ++ table
  let query_string :=
    if wc.length > 0 then
      query_string ++ " where " ++ String.intercalate " and " (wc ++ where_circle)
    else query_string
  let query_string :=
    if order_by.length > 0 then
      query_string ++ " order by " ++ order_by
        ++ (if order_by_desc then " desc " else " asc ")
    else query_string
  let query_string := match top with
    | some t => "select top " ++ toString t ++ " " ++ query_string
    | Option.none => "select " ++ query_string
  pyStrip query_string

/-- utils.py2adql with the caller's `where_constraints` Python list made
explicit as a heap cell: `heap` is the set of allocated list objects, and
`where_constraints_ref` the caller's argument (`None` or a reference into the
heap). The statement `wc = [] if where_constraints is None else
where_constraints[:]` allocates a fresh cell holding a copy of the contents;
every later list operation of the function body reads that fresh cell (and
`wc + where_circle` allocates again rather than mutating), so the body is the
pure `py2adql` applied to the copied contents. -/
def py2adql_heap (heap : List (List String)) (where_constraints_ref : Option Nat)
    (table : String) (columns : Columns) (ra dec radius : Option Int)
    (order_by : String) (order_by_desc : Bool) (count_only : Bool)
    (top : Option Int) : String × List (List String) :=
  let contents : List String := match where_constraints_ref with
    | Option.none => []
    | some i => heap.getD i []
  let heap1 := heap ++ [contents]
  (py2adql table columns ra dec radius (some contents) order_by
    order_by_desc count_only top, heap1)

/-- core.AuthInfo. `expiration_time` is the decoded `exp` claim of the token
(the base64/JSON decoding of `_get_exp_time_from_token` is collaborator work
and not re-modelled; claims here only concern the stored value). -/
structure AuthInfo where
  username : String
  password : String
  token : String
  expiration_time : Int
  deriving DecidableEq

/-- core.AuthInfo.expired: `time.time() > self.expiration_time - 600`,
with the current time passed explicitly. -/
def AuthInfo.expired (a : AuthInfo) (now : Int) : Bool :=
  now > a.expiration_time - 600

/-- core.QueryOnField. -/
structure QueryOnField where
  table_name : String
  column_name : String
  deriving DecidableEq

/-- core.QueryOnInstrument. -/
def QueryOnInstrument : QueryOnField :=
  { table_name := "dbo.raw", column_name := "instrument" }

/-- core.QueryOnCollection. -/
def QueryOnCollection : QueryOnField :=
  { table_name := "ivoa.ObsCore", column_name := "obs_collection" }

/-- The `primary_filter` argument of `_query_instrument_or_collection`:
`Union[List[str], str]`. -/
inductive PrimaryFilter where
  | pystr (s : String)
  | pylist (l : List String)
  deriving DecidableEq

/-- The `where_collections_str` local of
`EsoClass._query_instrument_or_collection`:
`f"{query_on.column_name} in (" + ", ".join(primary_filter) + ")"` after
`primary_filter = list(map(lambda x: f"'{x.strip()}'", primary_filter))`
(with a string argument first split on commas). -/
def where_collections_str (query_on : QueryOnField)
    (primary_filter : PrimaryFilter) : String :=
  let pf : List String := match primary_filter with
    | .pystr s => _split_str_as_list_of_str s
    | .pylist l => l
  let pf1 := pf.map (fun x => "'" ++ pyStrip x ++ "'")
  query_on.column_name ++ " in (" ++ String.intercalate ", " pf1 ++ ")"

/-- The `where_constraints` list built by
`EsoClass._query_instrument_or_collection` from the merged filter dict
`filters = {**dict(kwargs), **column_filters}` (modelled as an
insertion-ordered association list with distinct keys, matching dict
iteration order). Mirrors, in order: the `'box'` deletion, the
`coord1`/`coord2` deletion and reinterpretation with `c_size = 0.1775`, and
the `f"{k} = {sanitize_val(v)}"` comprehension. -/
def instrument_where_constraints (query_on : QueryOnField)
    (primary_filter : PrimaryFilter) (filters0 : List (String × PyVal)) :
    List String :=
  -- if 'box' in filters.keys(): del filters['box']
  let filters1 := if (filters0.lookup "box").isSome
    then filters0.filter (fun kv => kv.1 != "box") else filters0
  -- if ('coord1' in filters.keys()) and ('coord2' in filters.keys()): ...
  let coord_constraint : List String :=
    match filters1.lookup "coord1", filters1.lookup "coord2" with
    | some c1, some c2 =>
      ["intersects(circle('ICRS', " ++ c1.interp ++ ", " ++ c2.interp
        ++ ", 0.1775), s_region)=1"]
    | _, _ => []
  let filters2 : List (String × PyVal) :=
    match filters1.lookup "coord1", filters1.lookup "coord2" with
    | some _, some _ =>
      (filters1.filter (fun kv => kv.1 != "coord1")).filter
        (fun kv => kv.1 != "coord2")
    | _, _ => filters1
  let where_constraints_strlist :=
    (filters2.map (fun kv => kv.1 ++ " = " ++ sanitize_val kv.2))
      ++ coord_constraint
  [where_collections_str query_on primary_filter] ++ where_constraints_strlist

/-- The ADQL string that `EsoClass._query_instrument_or_collection` builds and
passes to `query_tap_service` (the non-help path; `row_limit` is
`self.ROW_LIMIT`, passed as `top`). -/
def _query_instrument_or_collection_adql (query_on : QueryOnField)
    (primary_filter : PrimaryFilter) (filters : List (String × PyVal))
    (columns : Columns) (row_limit : Option Int) : String :=
  py2adql query_on.table_name columns Option.none Option.none Option.none
    (some (instrument_where_constraints query_on primary_filter filters))
    "" true false row_limit

/-- An astropy Table, modelled abstractly as its list of rows (the executor
and cache only use its length, truthiness and identity). -/
structure Table where
  rows : List String
  deriving DecidableEq

/-- What `pickle.load` does on a cache file's bytes: produce a `Table`,
produce some other pickled object (`if not isinstance(cached_table, Table)`),
or raise (`UnpicklingError`/`EOFError` on corrupt or truncated bytes). -/
inductive Pickled where
  | table (t : Table)
  | other
  | corrupt
  deriving DecidableEq

/-- The on-disk cache file for one query hash: its `st_mtime` (seconds) and
deserialized content. `Option CacheFile` with `none` models an absent file
(`stat`/`open` raise `FileNotFoundError`, which the source catches). -/
structure CacheFile where
  mtime : Int
  content : Pickled
  deriving DecidableEq

/-- What a call to core.EsoClass.from_cache does: return a value (the cached
table or `None`), or let an exception raised by `pickle.load` propagate —
the function's `try` catches only `FileNotFoundError`. -/
inductive CacheLookup where
  | ret (t : Option Table)
  | raises
  deriving DecidableEq

/-- core.EsoClass.from_cache: return the cached table, or `None` on a missing
file, an expired entry (`now - mtime > cache_timeout`, never when
`cache_timeout is None`), or a content that is not a `Table`. Not total in
exceptions: only `FileNotFoundError` is caught, so when the entry is fresh
(or `cache_timeout` is `None`) and its bytes fail to unpickle, the
`pickle.load` exception propagates out (`CacheLookup.raises`); an expired
entry is never opened, so it cannot raise. -/
def from_cache (table_file : Option CacheFile) (now : Int)
    (cache_timeout : Option Int) : CacheLookup :=
  match table_file with
  | Option.none => CacheLookup.ret Option.none
  | some f =>
    let expired : Bool := match cache_timeout with
      | Option.none => false
      | some t => now - f.mtime > t
    if !expired then
      match f.content with
      | .table t => CacheLookup.ret (some t)
      | .other => CacheLookup.ret Option.none
      | .corrupt => CacheLookup.raises
    else CacheLookup.ret Option.none

/-- Outcome of `tap.search(query_str).to_table()`: a table, or a raised
`pyvo.dal.exceptions.DALQueryError`. -/
inductive TapOutcome where
  | success (t : Table)
  | dalQueryError
  deriving DecidableEq

/-- What core.EsoClass.query_tap_service does for the caller: a returned
table, a `NoResultsWarning` with `None` returned, a re-raised
`DALQueryError`, or an unpickling exception from `from_cache` propagating
uncaught (the `try` catches only `DALQueryError` and the never-raised
`UnknownException`). -/
inductive QueryResult where
  | table (t : Table)
  | noResultsWarning
  | dalQueryError (msg : String)
  | uncaughtUnpickling
  deriving DecidableEq

/-- The message of the re-raised `DALQueryError` in query_tap_service
(the source's f-string; its line-continuation indentation blanks elided). -/
def dal_error_message (query_str : String) : String :=
  "Error executing the following query:\n\n" ++ query_str ++ "\n\n"

/-- core.EsoClass.query_tap_service with the `cache=True`/`cache=False`
argument resolved, the cache file for this query's hash and the remote TAP
outcome passed explicitly. Returns the caller-visible result and the cache
file afterwards. Mirrors the source: `table_to_return = from_cache(...)`;
`if not table_to_return:` (Python falsy: `None` or a zero-row table) fetch
remotely and `to_cache` the fetched table unconditionally; a `DALQueryError`
is re-raised with the query text, while an unpickling exception from
`from_cache` propagates uncaught; finally `len(table_to_return) > 0` decides
between returning the table and warning `NoResultsWarning`. `attempt` is the
try-block: `.error` short-circuits with the escaping exception's result,
`.ok` falls through to the shared length check. -/
def query_tap_service (query_str : String) (cache : Bool)
    (cache_file : Option CacheFile) (now : Int) (cache_timeout : Option Int)
    (remote : TapOutcome) : QueryResult × Option CacheFile :=
  let attempt : Except QueryResult (Table × Option CacheFile) :=
    if !cache then
      match remote with
      | .success t => .ok (t, cache_file)
      | .dalQueryError => .error (QueryResult.dalQueryError (dal_error_message query_str))
    else
      match from_cache cache_file now cache_timeout with
      | .raises => .error QueryResult.uncaughtUnpickling
      | .ret (some cached) =>
        if cached.rows.length != 0 then .ok (cached, cache_file)
        else
          match remote with
          | .success t => .ok (t, some { mtime := now, content := Pickled.table t })
          | .dalQueryError => .error (QueryResult.dalQueryError (dal_error_message query_str))
      | .ret Option.none =>
        match remote with
        | .success t => .ok (t, some { mtime := now, content := Pickled.table t })
        | .dalQueryError => .error (QueryResult.dalQueryError (dal_error_message query_str))
  match attempt with
  | .error r => (r, cache_file)
  | .ok (t, cf) =>
    (if t.rows.length > 0 then QueryResult.table t else QueryResult.noResultsWarning, cf)

/-- Outcome of the HTTP GET to the SSO endpoint in `_authenticate`: a
response with a status code, the body's `id_token` and that token's decoded
`exp` claim, or a raised transport exception. -/
inductive SsoOutcome where
  | response (status : Nat) (id_token : String) (exp : Int)
  | raised
  deriving DecidableEq

/-- core.EsoClass._authenticate. First statement: `self._auth_info = None`
(discarding `_prior_auth_info`). Returns `(return value, _auth_info after)`;
a `none` return value models the request's exception propagating. -/
def _authenticate (username password : String)
    (_prior_auth_info : Option AuthInfo) (resp : SsoOutcome) :
    Option Bool × Option AuthInfo :=
  match resp with
  | .raised => (Option.none, Option.none)
  | .response status id_token exp =>
    if status = 200 then
      (some true, some { username := username, password := password,
                         token := id_token, expiration_time := exp })
    else
      (some false, Option.none)

/-- The values `self._auth_info` holds at the successive program points of
`_authenticate`: after the initial `self._auth_info = None` (and hence while
the SSO request is in flight, and when its exception propagates), and after
each later assignment. -/
def _authenticate_states (username password : String) (resp : SsoOutcome) :
    List (Option AuthInfo) :=
  let s1 : Option AuthInfo := Option.none
  match resp with
  | .raised => [s1]
  | .response status id_token exp =>
    if status = 200 then
      [s1, some { username := username, password := password,
                  token := id_token, expiration_time := exp }]
    else [s1]

/-- core.EsoClass._get_auth_header: silently re-authenticate when the stored
session is expired, then return a Bearer header if a non-expired session
exists, else an empty header dict. `renew` is the SSO outcome the silent
re-authentication would see; the outer `none` models its exception
propagating out of `_get_auth_header` as well. -/
def _get_auth_header (auth_info : Option AuthInfo) (now : Int)
    (renew : SsoOutcome) :
    Option (List (String × String) × Option AuthInfo) :=
  let step : Option (Option AuthInfo) := match auth_info with
    | some a =>
      if a.expired now then
        match _authenticate a.username a.password auth_info renew with
        | (Option.none, _) => Option.none
        | (some _, ai) => some ai
      else some auth_info
    | Option.none => some auth_info
  match step with
  | Option.none => Option.none
  | some auth1 =>
    some (match auth1 with
      | some a =>
        if !(a.expired now) then
          ([("Authorization", "Bearer " ++ a.token)], auth1)
        else ([], auth1)
      | Option.none => ([], auth1))
theorem lookup_filter_bne (l : List (String × PyVal)) (k : String) :
    (l.filter (fun kv => kv.1 != k)).lookup k = Option.none := by
  induction l with
  | nil => rfl
  | cons a t ih =>
    by_cases h : a.1 = k
    · simp [List.filter_cons, h, ih]
    · have hk : (k == a.1) = false := by simp [Ne.symm h]
      simp [List.filter_cons, h, List.lookup, hk, ih]

/-- C1: the claim says an operator-prefixed string filter value renders with
the operator preserved and only the column name prefixed ("c like '%x%'").
The code instead quotes the whole value and always emits "=": the fragment is
"c = 'like '%x%''". -/
theorem eso_C1_counterexample :
    instrument_where_constraints QueryOnInstrument (PrimaryFilter.pylist ["HARPS"])
      [("c", PyVal.str "like '%x%'")]
      = ["instrument in ('HARPS')", "c = 'like '%x%''"]
    ∧ ("c = 'like '%x%''" : String) ≠ "c like '%x%'" := by
  exact ⟨rfl, by decide⟩

/-- C1 (amended): operator prefixes are never recognized. For every filter
dict free of the special keys box/coord1/coord2, each entry (k, v) renders as
"k = sanitize_val(v)", and a string value is always wrapped verbatim in one
added pair of quotes, operator tokens included. -/
theorem eso_C1_amended (query_on : QueryOnField) (pf : PrimaryFilter)
    (filters : List (String × PyVal))
    (hbox : filters.lookup "box" = Option.none)
    (hc1 : filters.lookup "coord1" = Option.none) :
    instrument_where_constraints query_on pf filters
      = where_collections_str query_on pf
        :: filters.map (fun kv => kv.1 ++ " = " ++ sanitize_val kv.2)
    ∧ ∀ s : String, adql_sanitize_val (PyVal.str s) = "'" ++ s ++ "'" := by
  constructor
  · simp [instrument_where_constraints, hbox, hc1]
  · intro s; rfl

theorem eso_C1_amended_witness :
    instrument_where_constraints QueryOnInstrument (PrimaryFilter.pylist ["HARPS"])
      [("c", PyVal.str "v")]
      = where_collections_str QueryOnInstrument (PrimaryFilter.pylist ["HARPS"])
        :: [("c", PyVal.str "v")].map (fun kv => kv.1 ++ " = " ++ sanitize_val kv.2)
    ∧ ∀ s : String, adql_sanitize_val (PyVal.str s) = "'" ++ s ++ "'" :=
  eso_C1_amended QueryOnInstrument (PrimaryFilter.pylist ["HARPS"])
    [("c", PyVal.str "v")] (by decide) (by decide)

/-- C2: the claim says a deprecated filter key such as 'box' raises a
ConstructionError at build time. The code instead silently deletes 'box' and
builds a query from the remaining filters; no error path exists. -/
theorem eso_C2_counterexample :
    _query_instrument_or_collection_adql QueryOnInstrument
      (PrimaryFilter.pylist ["HARPS"])
      [("box", PyVal.str "02 09"), ("dp_cat", PyVal.str "SCIENCE")]
      Columns.pynone (some 50)
      = "select top 50 * from dbo.raw where instrument in ('HARPS') and dp_cat = 'SCIENCE'" := by
  rfl

/-- C2 (amended): no build-time error exists. 'box' is silently deleted (the
query is the one built from the filters without it); 'stime'/'etime' are
accepted as ordinary equality filters; 'coord1'/'coord2' (both present) are
deleted and reinterpreted as a fixed-radius circle constraint. -/
theorem eso_C2_amended (query_on : QueryOnField) (pf : PrimaryFilter)
    (filters : List (String × PyVal)) (columns : Columns)
    (row_limit : Option Int)
    (hbox : (filters.lookup "box").isSome) :
    _query_instrument_or_collection_adql query_on pf filters columns row_limit
      = _query_instrument_or_collection_adql query_on pf
          (filters.filter (fun kv => kv.1 != "box")) columns row_limit
    ∧ instrument_where_constraints QueryOnInstrument (PrimaryFilter.pylist ["X"])
        [("stime", PyVal.str "2024-01-01"), ("etime", PyVal.str "2024-02-01")]
      = ["instrument in ('X')", "stime = '2024-01-01'", "etime = '2024-02-01'"]
    ∧ instrument_where_constraints QueryOnInstrument (PrimaryFilter.pylist ["MUSE"])
        [("coord1", PyVal.int 10), ("coord2", PyVal.int 20)]
      = ["instrument in ('MUSE')",
         "intersects(circle('ICRS', 10, 20, 0.1775), s_region)=1"] := by
  refine ⟨?_, rfl, rfl⟩
  have h1 := lookup_filter_bne filters "box"
  simp [_query_instrument_or_collection_adql, instrument_where_constraints, hbox, h1]

theorem eso_C2_amended_witness :
    _query_instrument_or_collection_adql QueryOnInstrument
      (PrimaryFilter.pylist ["HARPS"]) [("box", PyVal.str "b")]
      Columns.pynone Option.none
      = _query_instrument_or_collection_adql QueryOnInstrument
          (PrimaryFilter.pylist ["HARPS"])
          ([("box", PyVal.str "b")].filter (fun kv => kv.1 != "box"))
          Columns.pynone Option.none :=
  (eso_C2_amended QueryOnInstrument (PrimaryFilter.pylist ["HARPS"])
    [("box", PyVal.str "b")] Columns.pynone Option.none (by decide)).1
/-- C3: the claim says a successful zero-row query warns (no exception) and
is NOT stored in the cache. The code does warn, but it calls to_cache on the
fetched table before checking its length, so the empty table IS written to
the cache file. -/
theorem eso_C3_counterexample :
    (query_tap_service "q" true Option.none 0 Option.none
        (TapOutcome.success { rows := [] })).1 = QueryResult.noResultsWarning
    ∧ (query_tap_service "q" true Option.none 0 Option.none
        (TapOutcome.success { rows := [] })).2 ≠ Option.none := by
  exact ⟨rfl, by decide⟩

/-- C3 (amended): on a cache miss, a successfully executed query with zero
rows yields the warning-level no-results signal (not an exception) and the
empty table is nevertheless written to the cache; a service-reported query
fault propagates as a hard DALQueryError whose message carries the offending
query text, leaving the cache unchanged. -/
theorem eso_C3_amended (query_str : String) (cache_file : Option CacheFile)
    (now : Int) (cache_timeout : Option Int) (t : Table)
    (hmiss : from_cache cache_file now cache_timeout
      = CacheLookup.ret Option.none) :
    (t.rows = [] →
      query_tap_service query_str true cache_file now cache_timeout
          (TapOutcome.success t)
        = (QueryResult.noResultsWarning,
           some { mtime := now, content := Pickled.table t }))
    ∧ query_tap_service query_str true cache_file now cache_timeout
          TapOutcome.dalQueryError
        = (QueryResult.dalQueryError (dal_error_message query_str), cache_file)
    ∧ dal_error_message query_str
        = "Error executing the following query:\n\n" ++ query_str ++ "\n\n" := by
  refine ⟨?_, ?_, rfl⟩
  · intro ht
    simp [query_tap_service, hmiss, ht]
  · simp [query_tap_service, hmiss]

theorem eso_C3_amended_witness :
    query_tap_service "q" true Option.none 0 Option.none
        (TapOutcome.success { rows := [] })
      = (QueryResult.noResultsWarning,
         some { mtime := 0, content := Pickled.table { rows := [] } }) :=
  (eso_C3_amended "q" Option.none 0 Option.none { rows := [] } rfl).1 rfl

/-- C4: with ra, dec, radius all present (here 1, 2, 0) and no other WHERE
constraints, the claim (and the spec's builder contract) require the query to
contain "intersects(s_region, circle('ICRS', ra, dec, radius))=1". The code
builds a circle fragment but joins it only under `if len(wc) > 0`, so with an
empty constraint list the whole WHERE clause — the user's spatial constraint
included — is silently dropped; a zero ra drops it too (`if ra:`). -/
theorem eso_C4_failing :
    py2adql "ivoa.ObsCore" Columns.pynone (some 1) (some 2) (some 0) (some [])
        "" true false Option.none
      = "select * from ivoa.ObsCore"
    ∧ py2adql "ivoa.ObsCore" Columns.pynone (some 0) (some 2) (some 3)
        (some ["a = 'b'"]) "" true false Option.none
      = "select * from ivoa.ObsCore where a = 'b'" := by
  exact ⟨rfl, rfl⟩

/-- C5: the claim says expired() is true at exactly expiration_time - 600.
The comparison is strict (`time.time() > expiration_time - 600`), so at that
exact instant it is false. -/
theorem eso_C5_counterexample :
    AuthInfo.expired
      { username := "u", password := "p", token := "t", expiration_time := 1000 }
      400 = false := by
  rfl

/-- C5 (amended): expired() returns false at exactly expiration_time - 600
(and one second before), and true one second after that boundary — the
boundary instant itself is on the not-expired side. -/
theorem eso_C5_amended (a : AuthInfo) :
    a.expired (a.expiration_time - 600) = false
    ∧ a.expired (a.expiration_time - 601) = false
    ∧ a.expired (a.expiration_time - 599) = true := by
  refine ⟨?_, ?_, ?_⟩ <;> simp [AuthInfo.expired]

/-- C6: the claim says sanitization is idempotent on already-quoted values.
The code wraps unconditionally: re-sanitizing "'abc'" yields "''abc''" with a
second pair of quotes. -/
theorem eso_C6_counterexample :
    adql_sanitize_val (PyVal.str "'abc'") = "''abc''"
    ∧ adql_sanitize_val (PyVal.str "'abc'") ≠ "'abc'" := by
  exact ⟨rfl, by decide⟩

/-- C6 (amended): the sanitizer wraps every string value in exactly one
additional pair of single quotes, whether or not it is already quoted; it is
not idempotent — re-sanitizing adds another pair. -/
theorem eso_C6_amended (s : String) :
    adql_sanitize_val (PyVal.str s) = "'" ++ s ++ "'"
    ∧ adql_sanitize_val (PyVal.str (adql_sanitize_val (PyVal.str s)))
        = "'" ++ ("'" ++ s ++ "'") ++ "'" := by
  exact ⟨rfl, rfl⟩

/-- C7: the claim says cache lookup is total and never raises, returning a
miss when the stored entry does not deserialize to a Table. But from_cache
catches only FileNotFoundError: a fresh entry whose bytes fail to unpickle
makes pickle.load raise out of the function instead of returning a miss. -/
theorem eso_C7_counterexample :
    from_cache (some { mtime := 0, content := Pickled.corrupt }) 10 Option.none
      = CacheLookup.raises
    ∧ CacheLookup.raises ≠ CacheLookup.ret Option.none := by
  exact ⟨rfl, by decide⟩

/-- C7 (amended): cache lookup returns a miss (None) when no cache file
exists, when the entry deserializes to a value that is not a Table, or when
the entry's age strictly exceeds the configured ttl — an expired entry is
not even opened, so it misses (and cannot raise) whatever its content; with
ttl None an entry never expires and a stored Table is returned whatever its
age. Lookup is not total in exceptions, though: a fresh entry with corrupt
bytes makes the pickle.load exception propagate out of from_cache, since
only FileNotFoundError is caught. -/
theorem eso_C7_amended (now m t_limit : Int) (c : Pickled) (tb : Table)
    (ttl : Option Int) :
    from_cache Option.none now ttl = CacheLookup.ret Option.none
    ∧ from_cache (some { mtime := m, content := Pickled.other }) now ttl
        = CacheLookup.ret Option.none
    ∧ (now - m > t_limit →
        from_cache (some { mtime := m, content := c }) now (some t_limit)
          = CacheLookup.ret Option.none)
    ∧ from_cache (some { mtime := m, content := Pickled.table tb }) now
        Option.none = CacheLookup.ret (some tb)
    ∧ from_cache (some { mtime := m, content := Pickled.corrupt }) now
        Option.none = CacheLookup.raises := by
  refine ⟨rfl, ?_, ?_, rfl, rfl⟩
  · cases ttl <;> simp [from_cache]
  · intro h
    simp [from_cache, h]

theorem eso_C7_amended_witness :
    from_cache (some { mtime := 0, content := Pickled.corrupt }) 10 (some 5)
      = CacheLookup.ret Option.none :=
  (eso_C7_amended 10 0 5 Pickled.corrupt { rows := [] } (some 5)).2.2.1 (by decide)

/-- C8: a failed authentication (non-200 SSO response) clears any prior
session, returns false without raising, and a subsequent _get_auth_header on
the cleared session returns an empty header mapping. -/
theorem eso_C8 (username password : String) (prior : Option AuthInfo)
    (status : Nat) (id_token : String) (e now : Int) (renew : SsoOutcome)
    (hfail : status ≠ 200) :
    _authenticate username password prior
        (SsoOutcome.response status id_token e)
      = (some false, Option.none)
    ∧ _get_auth_header Option.none now renew = some ([], Option.none) := by
  refine ⟨?_, rfl⟩
  simp [_authenticate, hfail]

theorem eso_C8_witness :
    _authenticate "u" "p" Option.none (SsoOutcome.response 401 "t" 0)
      = (some false, Option.none)
    ∧ _get_auth_header Option.none 5 SsoOutcome.raised
      = some ([], Option.none) :=
  eso_C8 "u" "p" Option.none 401 "t" 0 5 SsoOutcome.raised (by decide)

/-- C9: building a query leaves every list the caller already holds
unchanged (the body copies where_constraints and allocates fresh lists), and
the query built from the copy is exactly py2adql of the original contents. -/
theorem eso_C9 (heap : List (List String)) (ref : Option Nat) (table : String)
    (columns : Columns) (ra dec radius : Option Int) (order_by : String)
    (order_by_desc count_only : Bool) (top : Option Int) :
    ((py2adql_heap heap ref table columns ra dec radius order_by order_by_desc
        count_only top).2).take heap.length = heap
    ∧ (py2adql_heap heap ref table columns ra dec radius order_by
        order_by_desc count_only top).1
      = py2adql table columns ra dec radius
          (some (match ref with | some i => heap.getD i [] | Option.none => []))
          order_by order_by_desc count_only top := by
  constructor
  · simp [py2adql_heap, List.take_left]
  · cases ref <;> rfl

/-- C10: _authenticate clears the stored session before contacting the SSO
endpoint; at every program point of the attempt the session is either None
or the freshly acquired one (built from a 200 response), and when the
credential exchange raises, the session is left as None. -/
theorem eso_C10 (u p : String) (resp : SsoOutcome) :
    (_authenticate_states u p resp).head? = some Option.none
    ∧ (∀ s ∈ _authenticate_states u p resp,
        s = Option.none
        ∨ ∃ id_token e, resp = SsoOutcome.response 200 id_token e
            ∧ s = some { username := u, password := p, token := id_token,
                         expiration_time := e })
    ∧ (resp = SsoOutcome.raised →
        _authenticate_states u p resp = [Option.none]) := by
  refine ⟨?_, ?_, ?_⟩
  · cases resp with
    | raised => rfl
    | response st tok e =>
      by_cases h : st = 200 <;> simp [_authenticate_states, h]
  · intro s hs
    cases resp with
    | raised =>
      simp [_authenticate_states] at hs
      exact Or.inl hs
    | response st tok e =>
      by_cases h : st = 200
      · subst h
        simp [_authenticate_states] at hs
        rcases hs with hs | hs
        · exact Or.inl hs
        · exact Or.inr ⟨tok, e, rfl, hs⟩
      · simp [_authenticate_states, h] at hs
        exact Or.inl hs
  · intro h
    subst h
    rfl

theorem eso_C10_witness :
    _authenticate_states "u" "p" SsoOutcome.raised = [Option.none] :=
  (eso_C10 "u" "p" SsoOutcome.raised).2.2 rfl
